/-
Verification of the AI symptom analyzer backend against its specification.

The Python sources are shallowly embedded in Lean 4:
  * `smart_symptom_classifier.py` — the rule-based keyword classifier;
  * `model_manager.py`            — the model load/unload manager;
  * `main.py`                     — request validation, the analysis strategy
                                    chain, GPT-response parsing, and the
                                    entity-confidence computation.

Machine floats appearing in the sources (keyword half-point weights,
confidence formulas, NER entity scores) are idealised as rationals; Python
integers are `Int`/`Nat`.  External services (OpenAI, the Hugging Face API,
`psutil`, `transformers` model loading) are inputs of the embedded
functions: each call outcome is a parameter.
-/
import Mathlib

/-! ## String-matching utilities

`smart_symptom_classifier.py` tests keywords with Python's substring
operator (`keyword in text`) and with the regex `\b<keyword>\b`
(`re.search`).  Texts are modelled as lists of characters; lower-casing is
`Char.toLower` mapped over the text. -/

/-- Python's `str.lower()` applied to a string, as a character list. -/
def lowerChars (s : String) : List Char := s.toList.map Char.toLower

/-- Python's substring test `pat in s` (`pat`, `s` character lists). -/
def containsSub (pat s : List Char) : Bool :=
  (List.range (s.length + 1)).any (fun i => pat.isPrefixOf (s.drop i))

/-- A regex word character for `\b`: alphanumeric or underscore. -/
def wordChar (c : Char) : Bool := c.isAlphanum || c == '_'

/-- Whether `pat` occurs in `s` starting at index `i` with a word boundary
on both sides (the keywords all start and end with word characters, so
`\b` amounts to the neighbouring character, if any, not being a word
character). -/
def wholeWordAt (pat s : List Char) (i : Nat) : Bool :=
  pat.isPrefixOf (s.drop i) &&
  (match i with
   | 0 => true
   | j + 1 =>
     match s.get? j with
     | some c => !wordChar c
     | none => true) &&
  (match s.get? (i + pat.length) with
   | some c => !wordChar c
   | none => true)

/-- Python's `re.search(r'\b' + re.escape(pat) + r'\b', s) is not None`. -/
def wholeWord (pat s : List Char) : Bool :=
  (List.range (s.length + 1)).any (wholeWordAt pat s)

theorem containsSub_of_wholeWord {pat s : List Char}
    (h : wholeWord pat s = true) : containsSub pat s = true := by
  rcases List.any_eq_true.mp h with ⟨i, hi, hat⟩
  simp only [wholeWordAt, Bool.and_eq_true] at hat
  exact List.any_eq_true.mpr ⟨i, hi, hat.1.1⟩

/-! ## `smart_symptom_classifier.py` -/

/-- One entry of `MedicalSymptomClassifier.symptom_categories`. -/
structure Category where
  name : String
  keywords : List String
  descr : String
deriving DecidableEq, Repr

/-- The `symptom_categories` dictionary, in insertion order. -/
def symptom_categories : List Category :=
  [⟨"respiratory",
    ["cough", "shortness of breath", "wheezing", "chest pain", "breathing",
     "lungs", "asthma", "pneumonia", "bronchitis", "oxygen", "air", "respiratory"],
    "Breathing and lung-related symptoms"⟩,
   ⟨"cardiovascular",
    ["heart", "chest pain", "palpitations", "blood pressure", "cardiac",
     "circulation", "pulse", "arrhythmia", "angina", "heart attack"],
    "Heart and circulation-related symptoms"⟩,
   ⟨"gastrointestinal",
    ["stomach", "abdominal", "nausea", "vomiting", "diarrhea", "constipation",
     "gastro", "intestinal", "bowel", "digestive", "acid reflux", "indigestion"],
    "Digestive system symptoms"⟩,
   ⟨"neurological",
    ["headache", "migraine", "dizziness", "seizure", "memory", "confusion",
     "numbness", "tingling", "paralysis", "stroke", "brain", "neurological"],
    "Brain and nervous system symptoms"⟩,
   ⟨"musculoskeletal",
    ["muscle", "joint", "bone", "arthritis", "back pain", "neck pain",
     "shoulder", "knee", "hip", "fracture", "sprain", "strain", "mobility"],
    "Muscles, bones, and joints symptoms"⟩,
   ⟨"dermatological",
    ["skin", "rash", "itching", "redness", "swelling", "bruising", "lesion",
     "acne", "eczema", "psoriasis", "dermatitis", "wound", "cut"],
    "Skin-related symptoms"⟩,
   ⟨"emergency",
    ["severe", "sudden", "acute", "emergency", "urgent", "critical", "blood",
     "bleeding", "unconscious", "difficulty breathing", "chest pain", "stroke"],
    "Emergency or urgent symptoms"⟩,
   ⟨"infectious",
    ["fever", "infection", "viral", "bacterial", "flu", "cold", "temperature",
     "chills", "swollen glands", "lymph nodes", "immune", "contagious"],
    "Infection-related symptoms"⟩,
   ⟨"psychological",
    ["anxiety", "depression", "stress", "panic", "mood", "mental", "emotional",
     "sleep", "insomnia", "fatigue", "exhaustion", "psychological"],
    "Mental health and psychological symptoms"⟩,
   ⟨"urological",
    ["urinary", "bladder", "kidney", "urine", "urination", "prostate",
     "incontinence", "UTI", "urological", "renal"],
    "Urinary system symptoms"⟩]

/-- The value `keyword.lower()` as a character list. -/
def kwChars (kw : String) : List Char := kw.toList.map Char.toLower

/-- Score contributed by one keyword in `classify_symptoms`, counted in
half points (the Python floats are all multiples of `0.5`): `1` point
(= 2 half points) when the lower-cased keyword is a substring of the
lower-cased text, plus `0.5` (= 1 half point) when it additionally matches
as a whole word (`re.search(r'\b...\b', ...)`). -/
def kwScore2 (t : List Char) (kw : String) : Nat :=
  if containsSub (kwChars kw) t then
    2 + (if wholeWord (kwChars kw) t then 1 else 0)
  else 0

/-- The score `classify_symptoms` accumulates for one category, in half
points.  Score comparisons between categories are unchanged by the
doubling. -/
def catScore2 (t : List Char) (c : Category) : Nat :=
  (c.keywords.map (kwScore2 t)).sum

/-- One keyword's score as the specification states it, as a rational:
`1` for a substring occurrence plus an extra `0.5` for a whole-word
occurrence. -/
def kwScoreVal (t : List Char) (kw : String) : ℚ :=
  (if containsSub (kwChars kw) t = true then (1 : ℚ) else 0) +
  (if containsSub (kwChars kw) t = true ∧ wholeWord (kwChars kw) t = true
   then (1 : ℚ) / 2 else 0)

/-- The `matched_keywords` list `classify_symptoms` accumulates for one
category (original keyword casing, in keyword-list order). -/
def catMatched (t : List Char) (c : Category) : List String :=
  c.keywords.filter (fun kw => containsSub (kwChars kw) t)

/-- Whether any keyword of any category occurs in the lower-cased text. -/
def anyKeywordMatch (text : String) : Bool :=
  symptom_categories.any
    (fun c => c.keywords.any (fun kw => containsSub (kwChars kw) (lowerChars text)))

/-- Result record of `classify_symptoms` (the fields the claims are about;
`all_categories` is the sorted score table and is omitted). -/
structure ClassificationResult where
  primary_category : String
  confidence : ℚ
  descr : String
  matched_keywords : List String
deriving DecidableEq, Repr

/-- Ordering used by `sorted(category_scores.items(), key=..., reverse=True)`:
`p` may come before `q` when `p`'s score is at least `q`'s.  Python's sort
is stable, as is `List.insertionSort` with this relation. -/
def scoreRel (t : List Char) (p q : Category) : Prop :=
  catScore2 t q ≤ catScore2 t p

instance (t : List Char) : DecidableRel (scoreRel t) := fun p q =>
  inferInstanceAs (Decidable (catScore2 t q ≤ catScore2 t p))

instance (t : List Char) : IsTotal Category (scoreRel t) :=
  ⟨fun p q => Nat.le_total (catScore2 t q) (catScore2 t p)⟩

instance (t : List Char) : IsTrans Category (scoreRel t) :=
  ⟨fun _ _ _ h h' => Nat.le_trans h' h⟩

/-- Embedding of `MedicalSymptomClassifier.classify_symptoms`.  The text is lower-cased,
every category is scored by keyword matching, categories with positive
score are sorted by descending score (stably), and the best one is
returned; with no match at all, the `"general"` default is returned.  The
confidence formula `min(0.95, score/max_possible*0.8 + 0.3)` is idealised
over rationals (`score` being `catScore2 / 2`).  `positiveCategories` is
the `category_scores` dictionary: the categories with nonzero score, in
insertion order. -/
def positiveCategories (text : String) : List Category :=
  symptom_categories.filter (fun c => decide (0 < catScore2 (lowerChars text) c))

def classify_symptoms (text : String) : ClassificationResult :=
  match List.insertionSort (scoreRel (lowerChars text)) (positiveCategories text) with
  | [] =>
    ⟨"general", 1 / 2, "General medical symptoms", []⟩
  | p :: _ =>
    ⟨p.name,
     min (95 / 100)
       (((catScore2 (lowerChars text) p : ℚ) / 2 / (p.keywords.length : ℚ))
         * (8 / 10) + 3 / 10),
     p.descr,
     catMatched (lowerChars text) p⟩

/-- Score of the category named `name`, in half points (`0` for an unknown
name).  The category names are pairwise distinct, so this finds the unique
category of that name. -/
def categoryScore2ByName (name : String) (text : String) : Nat :=
  match symptom_categories.find? (fun c => c.name == name) with
  | some c => catScore2 (lowerChars text) c
  | none => 0

/-- Matched keywords of the category named `name`. -/
def categoryMatchedByName (name : String) (text : String) : List String :=
  match symptom_categories.find? (fun c => c.name == name) with
  | some c => catMatched (lowerChars text) c
  | none => []

/-- The largest half-point score any category reaches on the text. -/
def maxCategoryScore2 (text : String) : Nat :=
  (symptom_categories.map (catScore2 (lowerChars text))).foldr max 0

/-- The urgency keyword lists of `get_urgency_indicators`. -/
def high_urgency_keywords : List String :=
  ["severe", "acute", "sudden", "emergency", "critical", "unbearable", "excruciating"]

def medium_urgency_keywords : List String :=
  ["persistent", "worsening", "concerning", "moderate", "ongoing"]

def low_urgency_keywords : List String :=
  ["mild", "slight", "minor", "occasional", "intermittent"]

/-- Number of keywords from `kws` occurring in the lower-cased text (each
keyword counted once, as in the Python loop). -/
def urgencyCount (kws : List String) (t : List Char) : Nat :=
  (kws.filter (fun kw => containsSub (kwChars kw) t)).length

/-- Result record of `get_urgency_indicators` (the `urgency_indicators`
count table is carried as the three counts). -/
structure UrgencyResult where
  urgency_level : String
  urgency_score : Nat
  highCount : Nat
  mediumCount : Nat
  lowCount : Nat
deriving DecidableEq, Repr

/-- Embedding of `MedicalSymptomClassifier.get_urgency_indicators`. -/
def get_urgency_indicators (text : String) : UrgencyResult :=
  if 0 < urgencyCount high_urgency_keywords (lowerChars text) then
    ⟨"high",
     min 10 (7 + urgencyCount high_urgency_keywords (lowerChars text)),
     urgencyCount high_urgency_keywords (lowerChars text),
     urgencyCount medium_urgency_keywords (lowerChars text),
     urgencyCount low_urgency_keywords (lowerChars text)⟩
  else if urgencyCount low_urgency_keywords (lowerChars text)
      < urgencyCount medium_urgency_keywords (lowerChars text) then
    ⟨"medium",
     4 + min 3 (urgencyCount medium_urgency_keywords (lowerChars text)),
     urgencyCount high_urgency_keywords (lowerChars text),
     urgencyCount medium_urgency_keywords (lowerChars text),
     urgencyCount low_urgency_keywords (lowerChars text)⟩
  else
    ⟨"low",
     1 + min 3 (urgencyCount low_urgency_keywords (lowerChars text)),
     urgencyCount high_urgency_keywords (lowerChars text),
     urgencyCount medium_urgency_keywords (lowerChars text),
     urgencyCount low_urgency_keywords (lowerChars text)⟩

/-! ## Lemmas about the classifier -/

theorem kwScore2_eq_zero_iff {t : List Char} {kw : String} :
    kwScore2 t kw = 0 ↔ containsSub (kwChars kw) t = false := by
  unfold kwScore2
  cases h : containsSub (kwChars kw) t <;> simp [h]

theorem catScore2_eq_zero_iff {t : List Char} {c : Category} :
    catScore2 t c = 0 ↔ ∀ kw ∈ c.keywords, containsSub (kwChars kw) t = false := by
  unfold catScore2
  rw [List.sum_eq_zero_iff]
  constructor
  · intro h kw hkw
    exact kwScore2_eq_zero_iff.mp (h _ (List.mem_map_of_mem _ hkw))
  · intro h x hx
    rcases List.mem_map.mp hx with ⟨kw, hkw, rfl⟩
    exact kwScore2_eq_zero_iff.mpr (h kw hkw)

theorem kwScore2_cast (t : List Char) (kw : String) :
    (kwScore2 t kw : ℚ) / 2 = kwScoreVal t kw := by
  unfold kwScore2 kwScoreVal
  cases h1 : containsSub (kwChars kw) t <;>
    cases h2 : wholeWord (kwChars kw) t <;>
      · first
        | (simp [h1, h2]; norm_num)
        | simp [h1, h2]

theorem catScore2_cast (t : List Char) (c : Category) :
    (catScore2 t c : ℚ) / 2 = (c.keywords.map (kwScoreVal t)).sum := by
  unfold catScore2
  induction c.keywords with
  | nil => simp
  | cons kw l ih =>
    simp only [List.map_cons, List.sum_cons, Nat.cast_add, add_div, ih,
      kwScore2_cast]

theorem le_foldr_max {l : List Nat} {x : Nat} (h : x ∈ l) :
    x ≤ l.foldr max 0 := by
  induction l with
  | nil => cases h
  | cons a l ih =>
    rcases List.mem_cons.mp h with rfl | h
    · exact Nat.le_max_left _ _
    · exact Nat.le_trans (ih h) (Nat.le_max_right _ _)

theorem foldr_max_le {l : List Nat} {M : Nat} (h : ∀ x ∈ l, x ≤ M) :
    l.foldr max 0 ≤ M := by
  induction l with
  | nil => exact Nat.zero_le M
  | cons a l ih =>
    exact Nat.max_le.mpr ⟨h a (List.mem_cons_self a l),
      ih (fun x hx => h x (List.mem_cons_of_mem a hx))⟩

theorem find?_eq_of_mem_nodup {l : List Category} {p : Category} (hp : p ∈ l)
    (hn : (l.map Category.name).Nodup) :
    l.find? (fun c => c.name == p.name) = some p := by
  induction l with
  | nil => cases hp
  | cons a l ih =>
    rcases List.mem_cons.mp hp with rfl | h
    · rw [List.find?_cons_of_pos]
      simp
    · have hn' : (∀ x ∈ l, ¬x.name = a.name) ∧ (l.map Category.name).Nodup := by
        simpa using hn
      have hne : a.name ≠ p.name := fun he => hn'.1 p h he.symm
      rw [List.find?_cons_of_neg]
      · exact ih h hn'.2
      · simp [hne]

theorem symptom_category_names_nodup :
    (symptom_categories.map Category.name).Nodup := by decide

/-- C4: `classify_symptoms` scores each category by giving one point per
keyword occurring as a substring of the lower-cased text plus an extra
half point when the keyword also occurs as a whole word; it returns a
category of maximal score together with that category's matched keywords,
and returns the `"general"` default with confidence `0.5` and no matched
keywords when no keyword of any category occurs. -/
theorem classify_symptoms_correct (text : String) :
    (∀ c ∈ symptom_categories,
        (catScore2 (lowerChars text) c : ℚ) / 2
          = (c.keywords.map (kwScoreVal (lowerChars text))).sum)
    ∧ (anyKeywordMatch text = false →
        classify_symptoms text =
          ⟨"general", 1 / 2, "General medical symptoms", []⟩)
    ∧ (anyKeywordMatch text = true →
        (classify_symptoms text).primary_category
            ∈ symptom_categories.map Category.name
        ∧ categoryScore2ByName (classify_symptoms text).primary_category text
            = maxCategoryScore2 text
        ∧ (classify_symptoms text).matched_keywords
            = categoryMatchedByName (classify_symptoms text).primary_category text) := by
  refine ⟨fun c _ => catScore2_cast _ c, ?_, ?_⟩
  · intro h
    have hz : ∀ c ∈ symptom_categories, catScore2 (lowerChars text) c = 0 := by
      intro c hc
      rw [catScore2_eq_zero_iff]
      intro kw hkw
      simp only [anyKeywordMatch, List.any_eq_false] at h
      have h2 := h c hc
      cases hval : containsSub (kwChars kw) (lowerChars text) with
      | false => rfl
      | true => exact absurd (List.any_eq_true.mpr ⟨kw, hkw, hval⟩) h2
    have hpos : positiveCategories text = [] := by
      rw [positiveCategories, List.filter_eq_nil_iff]
      intro c hc
      simp [hz c hc]
    unfold classify_symptoms
    rw [hpos]
    rfl
  · intro h
    rcases List.any_eq_true.mp h with ⟨c₀, hc₀, hkw₀⟩
    rcases List.any_eq_true.mp hkw₀ with ⟨kw₀, hkw₀m, hsub₀⟩
    have hc₀pos : 0 < catScore2 (lowerChars text) c₀ := by
      rcases Nat.eq_zero_or_pos (catScore2 (lowerChars text) c₀) with hz | hp
      · exact absurd (catScore2_eq_zero_iff.mp hz kw₀ hkw₀m) (by simp [hsub₀])
      · exact hp
    have hc₀mem : c₀ ∈ positiveCategories text :=
      List.mem_filter.mpr ⟨hc₀, by simpa using hc₀pos⟩
    cases hs : List.insertionSort (scoreRel (lowerChars text))
        (positiveCategories text) with
    | nil =>
      exfalso
      have : positiveCategories text = [] := by
        have hperm := List.perm_insertionSort (scoreRel (lowerChars text))
          (positiveCategories text)
        rw [hs] at hperm
        exact (hperm.symm).eq_nil
      rw [this] at hc₀mem
      cases hc₀mem
    | cons p rest =>
      have hclass : classify_symptoms text =
          ⟨p.name,
           min (95 / 100)
             (((catScore2 (lowerChars text) p : ℚ) / 2 / (p.keywords.length : ℚ))
               * (8 / 10) + 3 / 10),
           p.descr,
           catMatched (lowerChars text) p⟩ := by
        unfold classify_symptoms
        rw [hs]
      have hperm := List.perm_insertionSort (scoreRel (lowerChars text))
        (positiveCategories text)
      rw [hs] at hperm
      have hpmem : p ∈ positiveCategories text :=
        hperm.subset (List.mem_cons_self p rest)
      have hpcats : p ∈ symptom_categories := (List.mem_filter.mp hpmem).1
      have hsorted := List.sorted_insertionSort (scoreRel (lowerChars text))
        (positiveCategories text)
      rw [hs] at hsorted
      have hmax_pos : ∀ q ∈ positiveCategories text,
          catScore2 (lowerChars text) q ≤ catScore2 (lowerChars text) p := by
        intro q hq
        have hq' : q ∈ p :: rest := hperm.symm.subset hq
        rcases List.mem_cons.mp hq' with rfl | hq''
        · exact Nat.le_refl _
        · exact List.rel_of_sorted_cons hsorted q hq''
      have hmax : ∀ q ∈ symptom_categories,
          catScore2 (lowerChars text) q ≤ catScore2 (lowerChars text) p := by
        intro q hq
        rcases Nat.eq_zero_or_pos (catScore2 (lowerChars text) q) with hz | hp'
        · rw [hz]; exact Nat.zero_le _
        · exact hmax_pos q (List.mem_filter.mpr ⟨hq, by simpa using hp'⟩)
      have hfind := find?_eq_of_mem_nodup hpcats symptom_category_names_nodup
      refine ⟨?_, ?_, ?_⟩
      · rw [hclass]
        exact List.mem_map_of_mem _ hpcats
      · rw [hclass]
        show categoryScore2ByName p.name text = maxCategoryScore2 text
        unfold categoryScore2ByName maxCategoryScore2
        rw [hfind]
        refine Nat.le_antisymm (le_foldr_max (List.mem_map_of_mem _ hpcats))
          (foldr_max_le ?_)
        intro x hx
        rcases List.mem_map.mp hx with ⟨q, hq, rfl⟩
        exact hmax q hq
      · rw [hclass]
        show catMatched (lowerChars text) p = categoryMatchedByName p.name text
        unfold categoryMatchedByName
        rw [hfind]

/-- Witness for C4 on a concrete text: the classifier picks a known
category of maximal score and reports its matched keywords. -/
theorem classify_symptoms_correct_witness :
    (classify_symptoms "sudden severe headache").primary_category
        ∈ symptom_categories.map Category.name
    ∧ categoryScore2ByName
        (classify_symptoms "sudden severe headache").primary_category
        "sudden severe headache"
        = maxCategoryScore2 "sudden severe headache"
    ∧ (classify_symptoms "sudden severe headache").matched_keywords
        = categoryMatchedByName
            (classify_symptoms "sudden severe headache").primary_category
            "sudden severe headache" :=
  (classify_symptoms_correct "sudden severe headache").2.2 (by decide)

theorem urgencyCount_pos_iff {kws : List String} {t : List Char} :
    0 < urgencyCount kws t ↔
      ∃ kw ∈ kws, containsSub (kwChars kw) t = true := by
  unfold urgencyCount
  rw [← List.countP_eq_length_filter, List.countP_pos_iff]

/-- C5: `get_urgency_indicators` reports level `"high"` exactly when a
high-urgency keyword occurs as a substring of the lower-cased text, with
score `min 10 (7 + high count)`; otherwise it reports `"medium"` with
score `4 + min 3 (medium count)` when the medium count strictly exceeds
the low count, else `"low"` with score `1 + min 3 (low count)`; the score
always lies between `1` and `10`. -/
theorem get_urgency_indicators_correct (text : String) :
    ((get_urgency_indicators text).urgency_level = "high" ↔
      ∃ kw ∈ high_urgency_keywords,
        containsSub (kwChars kw) (lowerChars text) = true)
    ∧ ((get_urgency_indicators text).urgency_level = "high" →
        (get_urgency_indicators text).urgency_score
          = min 10 (7 + urgencyCount high_urgency_keywords (lowerChars text)))
    ∧ ((get_urgency_indicators text).urgency_level ≠ "high" →
        (if urgencyCount low_urgency_keywords (lowerChars text)
            < urgencyCount medium_urgency_keywords (lowerChars text) then
          (get_urgency_indicators text).urgency_level = "medium"
          ∧ (get_urgency_indicators text).urgency_score
              = 4 + min 3 (urgencyCount medium_urgency_keywords (lowerChars text))
        else
          (get_urgency_indicators text).urgency_level = "low"
          ∧ (get_urgency_indicators text).urgency_score
              = 1 + min 3 (urgencyCount low_urgency_keywords (lowerChars text))))
    ∧ 1 ≤ (get_urgency_indicators text).urgency_score
    ∧ (get_urgency_indicators text).urgency_score ≤ 10 := by
  by_cases h1 : 0 < urgencyCount high_urgency_keywords (lowerChars text)
  · have hr : get_urgency_indicators text =
        ⟨"high",
         min 10 (7 + urgencyCount high_urgency_keywords (lowerChars text)),
         urgencyCount high_urgency_keywords (lowerChars text),
         urgencyCount medium_urgency_keywords (lowerChars text),
         urgencyCount low_urgency_keywords (lowerChars text)⟩ := by
      unfold get_urgency_indicators
      rw [if_pos h1]
    rw [hr]
    refine ⟨⟨fun _ => urgencyCount_pos_iff.mp h1, fun _ => rfl⟩,
      fun _ => rfl, fun hne => absurd rfl hne, ?_, ?_⟩
    · show 1 ≤ min 10 (7 + urgencyCount high_urgency_keywords (lowerChars text))
      omega
    · show min 10 (7 + urgencyCount high_urgency_keywords (lowerChars text)) ≤ 10
      omega
  · by_cases h2 : urgencyCount low_urgency_keywords (lowerChars text)
        < urgencyCount medium_urgency_keywords (lowerChars text)
    · have hr : get_urgency_indicators text =
          ⟨"medium",
           4 + min 3 (urgencyCount medium_urgency_keywords (lowerChars text)),
           urgencyCount high_urgency_keywords (lowerChars text),
           urgencyCount medium_urgency_keywords (lowerChars text),
           urgencyCount low_urgency_keywords (lowerChars text)⟩ := by
        unfold get_urgency_indicators
        rw [if_neg h1, if_pos h2]
      rw [hr]
      refine ⟨⟨?_, ?_⟩, ?_, ?_, ?_, ?_⟩
      · intro h
        exact absurd h (by decide : ¬("medium" : String) = "high")
      · intro he
        exact absurd (urgencyCount_pos_iff.mpr he) h1
      · intro h
        exact absurd h (by decide : ¬("medium" : String) = "high")
      · intro _
        rw [if_pos h2]
        exact ⟨rfl, rfl⟩
      · show 1 ≤ 4 + min 3 (urgencyCount medium_urgency_keywords (lowerChars text))
        omega
      · show 4 + min 3 (urgencyCount medium_urgency_keywords (lowerChars text)) ≤ 10
        omega
    · have hr : get_urgency_indicators text =
          ⟨"low",
           1 + min 3 (urgencyCount low_urgency_keywords (lowerChars text)),
           urgencyCount high_urgency_keywords (lowerChars text),
           urgencyCount medium_urgency_keywords (lowerChars text),
           urgencyCount low_urgency_keywords (lowerChars text)⟩ := by
        unfold get_urgency_indicators
        rw [if_neg h1, if_neg h2]
      rw [hr]
      refine ⟨⟨?_, ?_⟩, ?_, ?_, ?_, ?_⟩
      · intro h
        exact absurd h (by decide : ¬("low" : String) = "high")
      · intro he
        exact absurd (urgencyCount_pos_iff.mpr he) h1
      · intro h
        exact absurd h (by decide : ¬("low" : String) = "high")
      · intro _
        rw [if_neg h2]
        exact ⟨rfl, rfl⟩
      · show 1 ≤ 1 + min 3 (urgencyCount low_urgency_keywords (lowerChars text))
        omega
      · show 1 + min 3 (urgencyCount low_urgency_keywords (lowerChars text)) ≤ 10
        omega

/-- Witness for C5 on a concrete text containing the high-urgency keyword
`"severe"`: the level is `"high"` and the score is `min 10 (7 + 1) = 8`. -/
theorem get_urgency_indicators_correct_witness :
    (get_urgency_indicators "severe pain").urgency_level = "high"
    ∧ (get_urgency_indicators "severe pain").urgency_score
        = min 10 (7 + urgencyCount high_urgency_keywords (lowerChars "severe pain")) :=
  ⟨(get_urgency_indicators_correct "severe pain").1.mpr
      ⟨"severe", by decide, by decide⟩,
    (get_urgency_indicators_correct "severe pain").2.1
      ((get_urgency_indicators_correct "severe pain").1.mpr
        ⟨"severe", by decide, by decide⟩)⟩

/-! ## `model_manager.py`

`ModelManager` state is the instance attributes `models` (keys of the
loaded-model dictionary), `model_status`, `model_configs` and
`current_memory_usage_mb`.  The `loading_progress` table and the cached
model objects influence nothing the claims speak about and are omitted.
External effects are parameters: `avail` is what
`get_available_memory_mb()` (psutil) returns, `ok` is whether the
`transformers`/`sentence_transformers` constructor call succeeds. -/

structure ModelConfig where
  name : String
  model_id : String
  model_type : String
  task : String
  descr : String
  memory_requirement_mb : Int
  priority : Int
  enabled : Bool
  load_on_startup : Bool
deriving DecidableEq, Repr

/-- The table built by `ModelManager._init_model_configs`, in dictionary insertion order. -/
def initial_model_configs : List (String × ModelConfig) :=
  [("biomedical_ner",
    ⟨"biomedical_ner", "d4data/biomedical-ner-all", "pipeline",
     "token-classification",
     "Extracts medical entities (diseases, symptoms, medications) from text",
     500, 1, true, true⟩),
   ("clinical_bert",
    ⟨"clinical_bert", "emilyalsentzer/Bio_ClinicalBERT", "pipeline",
     "fill-mask",
     "Clinical text understanding and medical context analysis",
     400, 2, true, true⟩),
   ("pubmed_bert",
    ⟨"pubmed_bert",
     "microsoft/BiomedNLP-PubMedBERT-base-uncased-abstract-fulltext",
     "pipeline", "fill-mask",
     "Biomedical literature comprehension and medical knowledge",
     400, 3, true, true⟩),
   ("disease_classifier",
    ⟨"disease_classifier", "facebook/bart-large-mnli", "pipeline",
     "zero-shot-classification",
     "Classifies symptoms into disease categories",
     600, 4, true, true⟩),
   ("medical_text_generator",
    ⟨"medical_text_generator", "microsoft/DialoGPT-medium", "pipeline",
     "text-generation",
     "Generates medical explanations and advice",
     800, 5, true, true⟩),
   ("symptom_severity",
    ⟨"symptom_severity", "cardiffnlp/twitter-roberta-base-sentiment-latest",
     "pipeline", "sentiment-analysis",
     "Analyzes symptom severity and urgency from text",
     300, 6, true, true⟩),
   ("medical_qa",
    ⟨"medical_qa", "deepset/roberta-base-squad2", "pipeline",
     "question-answering",
     "Answers medical questions based on context",
     400, 7, true, true⟩),
   ("drug_interaction",
    ⟨"drug_interaction", "allenai/scibert_scivocab_uncased", "pipeline",
     "fill-mask",
     "Analyzes potential drug interactions and side effects",
     350, 8, true, true⟩),
   ("embedder",
    ⟨"embedder", "all-MiniLM-L6-v2", "sentence_transformer", "embedding",
     "Creates semantic embeddings for medical text similarity",
     200, 9, true, true⟩),
   ("medical_summarizer",
    ⟨"medical_summarizer", "facebook/bart-large-cnn", "pipeline",
     "summarization",
     "Summarizes medical information and reports",
     600, 10, true, true⟩)]

/-- The constant `self.max_memory_usage_mb = 8000`. -/
def max_memory_usage_mb : Int := 8000

structure ManagerState where
  models : List String
  model_status : List (String × Bool)
  model_configs : List (String × ModelConfig)
  current_memory_usage_mb : Int
deriving DecidableEq, Repr

/-- The freshly constructed `ModelManager()`. -/
def initial_manager : ManagerState :=
  ⟨[], [], initial_model_configs, 0⟩

/-- Dictionary entry assignment `d[k] = v`. -/
def dictSet {α : Type} (d : List (String × α)) (k : String) (v : α) :
    List (String × α) :=
  (k, v) :: d.filter (fun p => !(p.1 == k))

/-- The read `self.model_status.get(name, False)`. -/
def statusGet (st : ManagerState) (name : String) : Bool :=
  match st.model_status.lookup name with
  | some b => b
  | none => false

/-- Embedding of `ModelManager.is_model_loaded`. -/
def is_model_loaded (st : ManagerState) (name : String) : Bool :=
  statusGet st name

/-- Embedding of `ModelManager.can_load_model`, with `avail` the value of
`get_available_memory_mb()`. -/
def can_load_model (st : ManagerState) (name : String) (avail : Int) : Bool :=
  match st.model_configs.lookup name with
  | none => false
  | some config =>
    decide (config.memory_requirement_mb < avail) &&
    decide (st.current_memory_usage_mb + config.memory_requirement_mb
              < max_memory_usage_mb)

/-- Embedding of `ModelManager.load_model`: returns the Python result together with the
new state.  `ok` is whether the underlying model constructor call
succeeds; on failure the status entry is set to `False` and `False` is
returned. -/
def load_model (st : ManagerState) (name : String) (avail : Int) (ok : Bool) :
    Bool × ManagerState :=
  match st.model_configs.lookup name with
  | none => (false, st)
  | some config =>
    if st.models.contains name && statusGet st name then
      (true, st)
    else if !can_load_model st name avail then
      (false, st)
    else if config.model_type == "pipeline"
        || config.model_type == "sentence_transformer" then
      if ok then
        (true,
         { st with
            models := name :: st.models.filter (fun m => !(m == name)),
            model_status := dictSet st.model_status name true,
            current_memory_usage_mb :=
              st.current_memory_usage_mb + config.memory_requirement_mb })
      else
        (false, { st with model_status := dictSet st.model_status name false })
    else
      (false, st)

/-- Embedding of `ModelManager.unload_model`. -/
def unload_model (st : ManagerState) (name : String) : Bool × ManagerState :=
  if !(st.models.contains name) then
    (true, st)
  else
    match st.model_configs.lookup name with
    | some config =>
      (true,
       { st with
          models := st.models.filter (fun m => !(m == name)),
          model_status := dictSet st.model_status name false,
          current_memory_usage_mb :=
            max 0 (st.current_memory_usage_mb - config.memory_requirement_mb) })
    | none =>
      (true,
       { st with
          models := st.models.filter (fun m => !(m == name)),
          model_status := dictSet st.model_status name false })

/-- One externally observable call on the manager. -/
inductive ManagerOp where
  | load (name : String) (avail : Int) (ok : Bool)
  | unload (name : String)
deriving DecidableEq, Repr

def applyOp (st : ManagerState) : ManagerOp → ManagerState
  | .load n a k => (load_model st n a k).2
  | .unload n => (unload_model st n).2

def runOps (ops : List ManagerOp) (st : ManagerState) : ManagerState :=
  ops.foldl applyOp st

/-- Ascending-priority order for `sorted(..., key=lambda x: x[1].priority)`. -/
def prioAsc (p q : String × ModelConfig) : Prop :=
  p.2.priority ≤ q.2.priority

instance : DecidableRel prioAsc := fun p q =>
  inferInstanceAs (Decidable (p.2.priority ≤ q.2.priority))

instance : IsTotal (String × ModelConfig) prioAsc :=
  ⟨fun p q => Int.le_total p.2.priority q.2.priority⟩

instance : IsTrans (String × ModelConfig) prioAsc :=
  ⟨fun _ _ _ h h' => Int.le_trans h h'⟩

/-- Descending-priority order for `sorted(..., reverse=True)`. -/
def prioDesc (p q : String × ModelConfig) : Prop :=
  q.2.priority ≤ p.2.priority

instance : DecidableRel prioDesc := fun p q =>
  inferInstanceAs (Decidable (q.2.priority ≤ p.2.priority))

instance : IsTotal (String × ModelConfig) prioDesc :=
  ⟨fun p q => Int.le_total q.2.priority p.2.priority⟩

instance : IsTrans (String × ModelConfig) prioDesc :=
  ⟨fun _ _ _ h h' => Int.le_trans h' h⟩

/-- Python's truthiness-guarded break test
`if max_models and len(loaded_models) >= max_models`: a limit of `None`
is no limit, and so is a limit of `0`, because `0` is falsy. -/
def maxModelsReached (mm : Option Int) (count : Nat) : Bool :=
  match mm with
  | none => false
  | some n => !(n == 0) && decide (n ≤ (count : Int))

/-- Loop body of `load_models_by_priority`; `acc` is `loaded_models`
reversed. -/
def lmbp_go (env : String → Int × Bool) (mm : Option Int) :
    List (String × ModelConfig) → ManagerState → List String →
      List String × ManagerState
  | [], st, acc => (acc.reverse, st)
  | (name, config) :: rest, st, acc =>
    if !config.enabled || !config.load_on_startup then
      lmbp_go env mm rest st acc
    else if maxModelsReached mm acc.length then
      (acc.reverse, st)
    else
      match load_model st name (env name).1 (env name).2 with
      | (true, st') => lmbp_go env mm rest st' (name :: acc)
      | (false, st') => lmbp_go env mm rest st' acc

/-- Embedding of `ModelManager.load_models_by_priority`.  `env` gives, per model name,
the available system memory observed and whether the constructor call
would succeed. -/
def load_models_by_priority (env : String → Int × Bool) (mm : Option Int)
    (st : ManagerState) : List String × ManagerState :=
  lmbp_go env mm (List.insertionSort prioAsc st.model_configs) st []

/-- The break test as the specification words it: stop as soon as
`max_models` models have been loaded whenever a limit is given. -/
def maxModelsReachedSpec (mm : Option Int) (count : Nat) : Bool :=
  match mm with
  | none => false
  | some n => decide (n ≤ (count : Int))

/-- The loop of `load_models_by_priority` with the stopping rule worded as
in the claim, for comparison with `lmbp_go`. -/
def lmbp_spec_go (env : String → Int × Bool) (mm : Option Int) :
    List (String × ModelConfig) → ManagerState → List String →
      List String × ManagerState
  | [], st, acc => (acc.reverse, st)
  | (name, config) :: rest, st, acc =>
    if !config.enabled || !config.load_on_startup then
      lmbp_spec_go env mm rest st acc
    else if maxModelsReachedSpec mm acc.length then
      (acc.reverse, st)
    else
      match load_model st name (env name).1 (env name).2 with
      | (true, st') => lmbp_spec_go env mm rest st' (name :: acc)
      | (false, st') => lmbp_spec_go env mm rest st' acc

/-- The function `load_models_by_priority` as the claim words it. -/
def load_models_by_priority_spec (env : String → Int × Bool) (mm : Option Int)
    (st : ManagerState) : List String × ManagerState :=
  lmbp_spec_go env mm (List.insertionSort prioAsc st.model_configs) st []

/-- The threshold `self.max_memory_usage_mb * 0.8` (exactly `6400`). -/
def optimize_high_threshold : Int := max_memory_usage_mb * 8 / 10

/-- The target `self.max_memory_usage_mb * 0.6` (exactly `4800`). -/
def optimize_low_threshold : Int := max_memory_usage_mb * 6 / 10

/-- Loop body of `optimize_memory` over the loaded models sorted by
descending priority. -/
def om_go : List (String × ModelConfig) → ManagerState →
    List String × ManagerState
  | [], st => ([], st)
  | (name, config) :: rest, st =>
    if st.current_memory_usage_mb ≤ optimize_low_threshold then
      ([], st)
    else if 5 < config.priority then
      let st' := (unload_model st name).2
      let r := om_go rest st'
      (name :: r.1, r.2)
    else
      om_go rest st

/-- Embedding of `ModelManager.optimize_memory`. -/
def optimize_memory (st : ManagerState) : List String × ManagerState :=
  if optimize_high_threshold < st.current_memory_usage_mb then
    om_go
      (List.insertionSort prioDesc
        (st.model_configs.filter (fun p => is_model_loaded st p.1)))
      st
  else
    ([], st)

/-- The state after unloading the given names in order. -/
def usageAfterUnloads (st : ManagerState) (names : List String) : ManagerState :=
  names.foldl (fun s n => (unload_model s n).2) st

/-- Priority of the configured model of that name (`0` for an unknown
name). -/
def configPriority (st : ManagerState) (name : String) : Int :=
  match st.model_configs.lookup name with
  | some c => c.priority
  | none => 0

/-! ## Lemmas about the model manager -/

theorem mem_of_lookup_eq_some {α : Type} {l : List (String × α)} {k : String}
    {v : α} (h : l.lookup k = some v) : (k, v) ∈ l := by
  induction l with
  | nil => cases h
  | cons p rest ih =>
    obtain ⟨k', v'⟩ := p
    by_cases hk : k = k'
    · subst hk
      simp [List.lookup] at h
      subst h
      exact List.mem_cons_self _ _
    · have hb : (k == k') = false := beq_eq_false_iff_ne.mpr hk
      simp [List.lookup, hb] at h
      exact List.mem_cons_of_mem _ (ih h)

theorem initial_config_req_nonneg {k : String} {c : ModelConfig}
    (h : initial_model_configs.lookup k = some c) :
    0 ≤ c.memory_requirement_mb := by
  have hall : ∀ p ∈ initial_model_configs, 0 ≤ p.2.memory_requirement_mb := by
    decide
  exact hall _ (mem_of_lookup_eq_some h)

/-- The state property C6 is about: the configuration table is the fixed
one and the tracked memory usage is in `[0, 8000)`. -/
def ManagerInvariant (st : ManagerState) : Prop :=
  st.model_configs = initial_model_configs
  ∧ 0 ≤ st.current_memory_usage_mb
  ∧ st.current_memory_usage_mb < max_memory_usage_mb

theorem invariant_applyOp {st : ManagerState} (h : ManagerInvariant st)
    (op : ManagerOp) : ManagerInvariant (applyOp st op) := by
  obtain ⟨hc, h0, h8⟩ := h
  cases op with
  | load n a k =>
    show ManagerInvariant (load_model st n a k).2
    unfold load_model
    split
    · exact ⟨hc, h0, h8⟩
    · rename_i config heq
      have hreq : 0 ≤ config.memory_requirement_mb :=
        initial_config_req_nonneg (hc ▸ heq)
      split_ifs with h1 h2 h3 h4
      · exact ⟨hc, h0, h8⟩
      · exact ⟨hc, h0, h8⟩
      · have hcan : can_load_model st n a = true := by
          cases hv : can_load_model st n a
          · exact absurd (by simp [hv]) h2
          · rfl
        unfold can_load_model at hcan
        rw [heq] at hcan
        rw [Bool.and_eq_true] at hcan
        have hlt : st.current_memory_usage_mb + config.memory_requirement_mb
            < max_memory_usage_mb := of_decide_eq_true hcan.2
        refine ⟨hc, ?_, hlt⟩
        show 0 ≤ st.current_memory_usage_mb + config.memory_requirement_mb
        omega
      · exact ⟨hc, h0, h8⟩
      · exact ⟨hc, h0, h8⟩
  | unload n =>
    show ManagerInvariant (unload_model st n).2
    unfold unload_model
    split_ifs with h1
    · exact ⟨hc, h0, h8⟩
    · split
      · rename_i config heq
        have hreq : 0 ≤ config.memory_requirement_mb :=
          initial_config_req_nonneg (hc ▸ heq)
        refine ⟨hc, le_max_left 0 _, ?_⟩
        show max 0 (st.current_memory_usage_mb - config.memory_requirement_mb)
          < max_memory_usage_mb
        have h8000 : max_memory_usage_mb = (8000 : Int) := rfl
        rcases max_choice 0
            (st.current_memory_usage_mb - config.memory_requirement_mb) with
          hm | hm <;> rw [hm] <;> omega
      · exact ⟨hc, h0, h8⟩

theorem invariant_runOps (ops : List ManagerOp) {st : ManagerState}
    (h : ManagerInvariant st) : ManagerInvariant (runOps ops st) := by
  induction ops generalizing st with
  | nil => exact h
  | cons op rest ih => exact ih (invariant_applyOp h op)

/-- C6: starting from a fresh manager, the tracked memory usage is `0`,
stays in `[0, 8000)` under any sequence of `load_model`/`unload_model`
calls, is unchanged by a `load_model` whose `can_load_model` check fails,
grows by the model's memory requirement on a successful fresh load, and is
decremented with clamping at `0` by `unload_model`. -/
theorem model_manager_memory_invariant :
    initial_manager.current_memory_usage_mb = 0
    ∧ (∀ ops : List ManagerOp,
        0 ≤ (runOps ops initial_manager).current_memory_usage_mb
        ∧ (runOps ops initial_manager).current_memory_usage_mb
            < max_memory_usage_mb)
    ∧ (∀ (st : ManagerState) (name : String) (avail : Int) (ok : Bool),
        can_load_model st name avail = false →
        (load_model st name avail ok).2.current_memory_usage_mb
          = st.current_memory_usage_mb)
    ∧ (∀ (st : ManagerState) (name : String) (avail : Int)
        (cfg : ModelConfig),
        st.model_configs.lookup name = some cfg →
        can_load_model st name avail = true →
        (st.models.contains name && statusGet st name) = false →
        (cfg.model_type == "pipeline"
          || cfg.model_type == "sentence_transformer") = true →
        (load_model st name avail true).2.current_memory_usage_mb
          = st.current_memory_usage_mb + cfg.memory_requirement_mb)
    ∧ (∀ (st : ManagerState) (name : String) (cfg : ModelConfig),
        st.models.contains name = true →
        st.model_configs.lookup name = some cfg →
        (unload_model st name).2.current_memory_usage_mb
          = max 0 (st.current_memory_usage_mb - cfg.memory_requirement_mb)) := by
  refine ⟨rfl, ?_, ?_, ?_, ?_⟩
  · intro ops
    exact (invariant_runOps ops ⟨rfl, by decide, by decide⟩).2.imp id id
  · intro st name avail ok h
    unfold load_model
    split
    · rfl
    · rename_i config heq
      split_ifs with h1 h2 h3 h4
      · rfl
      · rfl
      · exact absurd (by simp [h] : (!can_load_model st name avail) = true) h2
      · exact absurd (by simp [h] : (!can_load_model st name avail) = true) h2
      · exact absurd (by simp [h] : (!can_load_model st name avail) = true) h2
  · intro st name avail cfg hl hcan hload htype
    unfold load_model
    split
    · rename_i heq
      rw [hl] at heq
      cases heq
    · rename_i config heq
      have hcfg : cfg = config := by
        have h2 := hl.symm.trans heq
        injection h2 with h3
      subst hcfg
      have hln : (st.models.contains name && statusGet st name) ≠ true :=
        fun hcontra => Bool.false_ne_true (hload.symm.trans hcontra)
      have hcn : (!can_load_model st name avail) = false := by rw [hcan]; rfl
      have hcn' : (!can_load_model st name avail) ≠ true :=
        fun hcontra => Bool.false_ne_true (hcn.symm.trans hcontra)
      rw [if_neg hln, if_neg hcn', if_pos htype, if_pos rfl]
  · intro st name cfg hmem hl
    unfold unload_model
    have hm : (!st.models.contains name) = false := by rw [hmem]; rfl
    have hm' : (!st.models.contains name) ≠ true :=
      fun hcontra => Bool.false_ne_true (hm.symm.trans hcontra)
    rw [if_neg hm', hl]

/-- Witness for C6: with no system memory available, `can_load_model`
fails and a `load_model` call leaves the tracked usage unchanged. -/
theorem model_manager_memory_invariant_witness :
    (load_model initial_manager "biomedical_ner" 0 true).2.current_memory_usage_mb
      = initial_manager.current_memory_usage_mb :=
  model_manager_memory_invariant.2.2.1 initial_manager "biomedical_ner" 0 true
    (by decide)

theorem lmbp_go_eq_spec (env : String → Int × Bool) (mm : Option Int)
    (hmm : mm ≠ some 0) :
    ∀ (l : List (String × ModelConfig)) (st : ManagerState)
      (acc : List String),
      lmbp_go env mm l st acc = lmbp_spec_go env mm l st acc := by
  intro l
  induction l with
  | nil => intro st acc; rfl
  | cons p rest ih =>
    intro st acc
    obtain ⟨name, config⟩ := p
    have hreach : maxModelsReached mm acc.length
        = maxModelsReachedSpec mm acc.length := by
      cases mm with
      | none => rfl
      | some n =>
        have hn : (n == 0) = false := by
          cases hv : (n == 0) with
          | true => exact absurd (by rw [beq_iff_eq] at hv; rw [hv]) hmm
          | false => rfl
        simp [maxModelsReached, maxModelsReachedSpec, hn]
    unfold lmbp_go lmbp_spec_go
    by_cases hskip : (!config.enabled || !config.load_on_startup) = true
    · rw [if_pos hskip, if_pos hskip]
      exact ih st acc
    · rw [if_neg hskip, if_neg hskip, hreach]
      by_cases hr : maxModelsReachedSpec mm acc.length = true
      · rw [if_pos hr, if_pos hr]
      · rw [if_neg hr, if_neg hr]
        cases hld : load_model st name (env name).1 (env name).2 with
        | mk b st' =>
          cases b
          · exact ih st' acc
          · exact ih st' (name :: acc)

/-- C7 (amended): for a limit of `None` or any nonzero limit,
`load_models_by_priority` behaves exactly as specified: it tries models in
ascending priority order, skips disabled or non-startup models, stops once
the limit many models have been loaded, and returns the successfully
loaded names in attempt order.  (A limit of `0` is falsy in Python and is
treated as no limit; see the counterexample.) -/
theorem load_models_by_priority_matches_spec (env : String → Int × Bool)
    (mm : Option Int) (st : ManagerState) (hmm : mm ≠ some 0) :
    load_models_by_priority env mm st
      = load_models_by_priority_spec env mm st :=
  lmbp_go_eq_spec env mm hmm _ st []

/-- Witness for the amended C7 at the limitless call on a fresh manager
with ample memory. -/
theorem load_models_by_priority_matches_spec_witness :
    load_models_by_priority (fun _ => (100000, true)) none initial_manager
      = load_models_by_priority_spec (fun _ => (100000, true)) none
          initial_manager :=
  load_models_by_priority_matches_spec (fun _ => (100000, true)) none
    initial_manager (by decide)

/-- C7 counterexample: when the limit `0` is given, the code loads all ten
models (the priority-ordered list) rather than stopping after zero loads,
because `if max_models and ...` treats `0` as no limit. -/
theorem load_models_by_priority_counterexample :
    (load_models_by_priority (fun _ => (100000, true)) (some 0)
        initial_manager).1
      = ["biomedical_ner", "clinical_bert", "pubmed_bert",
         "disease_classifier", "medical_text_generator", "symptom_severity",
         "medical_qa", "drug_interaction", "embedder", "medical_summarizer"]
    ∧ ¬((load_models_by_priority (fun _ => (100000, true)) (some 0)
        initial_manager).1.length ≤ 0) := by
  constructor
  · decide
  · decide

theorem lookup_eq_of_mem_nodup {α : Type} {l : List (String × α)} {k : String}
    {v : α} (hm : (k, v) ∈ l) (hn : (l.map Prod.fst).Nodup) :
    l.lookup k = some v := by
  induction l with
  | nil => cases hm
  | cons p rest ih =>
    obtain ⟨k', v'⟩ := p
    have hn' : k' ∉ rest.map Prod.fst ∧ (rest.map Prod.fst).Nodup := by
      rw [List.map_cons, List.nodup_cons] at hn
      exact hn
    rcases List.mem_cons.mp hm with he | hm'
    · rw [show k = k' from congrArg Prod.fst he,
        show v = v' from congrArg Prod.snd he]
      simp [List.lookup]
    · have hkk : k ≠ k' := by
        intro he
        exact hn'.1 (he ▸ List.mem_map_of_mem Prod.fst hm')
      have hb : (k == k') = false := beq_eq_false_iff_ne.mpr hkk
      simp only [List.lookup, hb]
      exact ih hm' hn'.2

theorem om_go_names_sublist (l : List (String × ModelConfig)) :
    ∀ st : ManagerState, (om_go l st).1.Sublist (l.map Prod.fst) := by
  induction l with
  | nil => intro st; exact List.nil_sublist _
  | cons p rest ih =>
    intro st
    obtain ⟨name, config⟩ := p
    unfold om_go
    split_ifs with h1 h2
    · exact List.nil_sublist _
    · exact List.Sublist.cons₂ name (ih _)
    · exact List.Sublist.cons name (ih st)

theorem om_go_mem (l : List (String × ModelConfig)) :
    ∀ (st : ManagerState) (n : String), n ∈ (om_go l st).1 →
      ∃ c : ModelConfig, (n, c) ∈ l ∧ 5 < c.priority := by
  induction l with
  | nil => intro st n h; cases h
  | cons p rest ih =>
    intro st n h
    obtain ⟨name, config⟩ := p
    unfold om_go at h
    split_ifs at h with h1 h2
    · cases h
    · rcases List.mem_cons.mp h with rfl | h'
      · exact ⟨config, List.mem_cons_self _ _, h2⟩
      · rcases ih _ _ h' with ⟨c, hc, hp⟩
        exact ⟨c, List.mem_cons_of_mem _ hc, hp⟩
    · rcases ih _ _ h with ⟨c, hc, hp⟩
      exact ⟨c, List.mem_cons_of_mem _ hc, hp⟩

theorem om_go_prefix (l : List (String × ModelConfig)) :
    ∀ (st : ManagerState) (k : Nat), k < (om_go l st).1.length →
      optimize_low_threshold <
        (usageAfterUnloads st ((om_go l st).1.take k)).current_memory_usage_mb := by
  induction l with
  | nil =>
    intro st k hk
    cases hk
  | cons p rest ih =>
    intro st k hk
    obtain ⟨name, config⟩ := p
    unfold om_go at hk ⊢
    split_ifs at hk ⊢ with h1 h2
    · cases hk
    · cases k with
      | zero =>
        show optimize_low_threshold < st.current_memory_usage_mb
        omega
      | succ k' =>
        have hk' : k' < (om_go rest (unload_model st name).2).1.length := by
          simpa using hk
        have := ih (unload_model st name).2 k' hk'
        simpa [usageAfterUnloads] using this
    · exact ih st k hk

/-- C8: `optimize_memory` does nothing when the tracked usage is at most
80% of the 8000 MB cap; otherwise every model it unloads was loaded and
has priority greater than `5`, the unloads go from highest priority number
downward, and each unload happens only while the usage is still above the
60% target. -/
theorem optimize_memory_correct (st : ManagerState)
    (hkeys : (st.model_configs.map Prod.fst).Nodup) :
    (st.current_memory_usage_mb ≤ optimize_high_threshold →
      optimize_memory st = ([], st))
    ∧ (∀ n ∈ (optimize_memory st).1,
        is_model_loaded st n = true ∧ 5 < configPriority st n)
    ∧ (optimize_memory st).1.Pairwise
        (fun a b => configPriority st b ≤ configPriority st a)
    ∧ (∀ k, k < (optimize_memory st).1.length →
        optimize_low_threshold <
          (usageAfterUnloads st
            ((optimize_memory st).1.take k)).current_memory_usage_mb) := by
  by_cases hth : optimize_high_threshold < st.current_memory_usage_mb
  · have hopt : optimize_memory st =
        om_go
          (List.insertionSort prioDesc
            (st.model_configs.filter (fun p => is_model_loaded st p.1)))
          st := by
      unfold optimize_memory
      rw [if_pos hth]
    have hmemL : ∀ {n : String} {c : ModelConfig},
        (n, c) ∈ List.insertionSort prioDesc
            (st.model_configs.filter (fun p => is_model_loaded st p.1)) →
        (n, c) ∈ st.model_configs ∧ is_model_loaded st n = true := by
      intro n c hm
      have hm' := (List.perm_insertionSort prioDesc _).subset hm
      have := List.mem_filter.mp hm'
      exact ⟨this.1, by simpa using this.2⟩
    refine ⟨fun hle => absurd hth (not_lt.mpr hle), ?_, ?_, ?_⟩
    · intro n hn
      rw [hopt] at hn
      rcases om_go_mem _ _ _ hn with ⟨c, hcL, hp⟩
      rcases hmemL hcL with ⟨hcfg, hloaded⟩
      refine ⟨hloaded, ?_⟩
      unfold configPriority
      rw [lookup_eq_of_mem_nodup hcfg hkeys]
      exact hp
    · rw [hopt]
      have hsorted := List.sorted_insertionSort prioDesc
        (st.model_configs.filter (fun p => is_model_loaded st p.1))
      have hsorted' : (List.insertionSort prioDesc
          (st.model_configs.filter (fun p => is_model_loaded st p.1))).Pairwise
          (fun a b => configPriority st b.1 ≤ configPriority st a.1) := by
        refine List.Pairwise.imp_of_mem ?_ hsorted
        intro a b ha hb hr
        obtain ⟨na, ca⟩ := a
        obtain ⟨nb, cb⟩ := b
        have ha' := (hmemL ha).1
        have hb' := (hmemL hb).1
        unfold configPriority
        rw [lookup_eq_of_mem_nodup ha' hkeys, lookup_eq_of_mem_nodup hb' hkeys]
        exact hr
      have hmap : (List.insertionSort prioDesc
          (st.model_configs.filter
            (fun p => is_model_loaded st p.1))).map Prod.fst
            |>.Pairwise (fun a b => configPriority st b ≤ configPriority st a) :=
        List.pairwise_map.mpr hsorted'
      exact List.Pairwise.sublist (om_go_names_sublist _ st) hmap
    · intro k hk
      rw [hopt] at hk ⊢
      exact om_go_prefix _ st k hk
  · have hopt : optimize_memory st = ([], st) := by
      unfold optimize_memory
      rw [if_neg hth]
    refine ⟨fun _ => hopt, ?_, ?_, ?_⟩
    · intro n hn
      rw [hopt] at hn
      cases hn
    · rw [hopt]
      exact List.Pairwise.nil
    · intro k hk
      rw [hopt] at hk
      cases hk

/-- Witness for C8 at a below-threshold state: `optimize_memory` unloads
nothing. -/
theorem optimize_memory_correct_witness :
    optimize_memory
        ⟨["biomedical_ner"], [("biomedical_ner", true)],
         initial_model_configs, 500⟩
      = ([], ⟨["biomedical_ner"], [("biomedical_ner", true)],
         initial_model_configs, 500⟩) :=
  (optimize_memory_correct
      ⟨["biomedical_ner"], [("biomedical_ner", true)],
       initial_model_configs, 500⟩ (by decide)).1 (by decide)

/-! ## `main.py`

`AnalysisResponse` is the pydantic response model; `SymptomRequest`
validation, the `/analyze-symptoms` strategy chain, `parse_gpt_response`
and `calculate_confidence_from_entities` are embedded below.  The outcomes
of the external calls (OpenAI chat completion including its parse, the
Hugging Face analysis) are inputs, collected in `AnalysisEnv`. -/

structure AnalysisResponse where
  condition : String
  severity : String
  advice : String
  confidence : Int
  recommendations : List String
  whenToSeekHelp : String
  disclaimer : String
deriving DecidableEq, Repr

/-- The field names of the pydantic `AnalysisResponse` model, in
declaration order. -/
def analysisResponseFields : List String :=
  ["condition", "severity", "advice", "confidence", "recommendations",
   "whenToSeekHelp", "disclaimer"]

/-- The pydantic `SymptomRequest` constraints: `symptoms` has
`min_length=10, max_length=1000`; `age` is optional with `ge=1, le=120`;
`gender` is optional and unconstrained. -/
def symptomRequestValid (symptoms : String) (age : Option Int)
    (_gender : Option String) : Bool :=
  decide (10 ≤ symptoms.length) && decide (symptoms.length ≤ 1000) &&
  (match age with
   | none => true
   | some a => decide (1 ≤ a) && decide (a ≤ 120))

/-- The analysis strategies the specification names for the
`/analyze-symptoms` chain. -/
inductive Strategy where
  | openai
  | hfNer
  | ruleBased
  | staticFallback
deriving DecidableEq, Repr

/-- Outcomes of the external calls made by `analyze_symptoms`:
`openai_key` is whether `OPENAI_API_KEY` is set, `openai_result` the
outcome of the prompt/call/parse sequence (an exception or a parsed
response), `hf_available` is `HF_MODEL_AVAILABLE`, and `hf_result` the
outcome of `analyze_symptoms_with_huggingface`. -/
structure AnalysisEnv where
  openai_key : Bool
  openai_result : Except Unit AnalysisResponse
  hf_available : Bool
  hf_result : Except Unit AnalysisResponse

/-- The literal fallback response of `analyze_symptoms` when both AI
models are unavailable or failed. -/
def basic_fallback_response : AnalysisResponse :=
  ⟨"AI Analysis Unavailable", "Medium",
   "We're unable to provide AI analysis at the moment. Please consult with a healthcare professional for proper evaluation of your symptoms.",
   0,
   ["Consult with a healthcare professional",
    "Monitor your symptoms closely",
    "Seek medical attention if symptoms worsen",
    "Keep a record of your symptoms"],
   "Seek immediate medical attention if you experience severe symptoms, difficulty breathing, chest pain, or if your condition rapidly worsens.",
   "AI analysis is temporarily unavailable. Always consult healthcare professionals for medical advice."⟩

/-- The Hugging Face stage and the shared tail of `analyze_symptoms`:
if `HF_MODEL_AVAILABLE`, try the Hugging Face analysis and return its
result, falling through to the static fallback on an exception. -/
def hf_stage (env : AnalysisEnv) : List Strategy × AnalysisResponse :=
  if env.hf_available then
    match env.hf_result with
    | .ok a => ([Strategy.hfNer], a)
    | .error _ =>
      ([Strategy.hfNer, Strategy.staticFallback], basic_fallback_response)
  else
    ([Strategy.staticFallback], basic_fallback_response)

/-- The `/analyze-symptoms` handler body: OpenAI first when a key is
configured (an exception falls through), then the Hugging Face stage,
then the static fallback.  The first component records which strategies
were attempted, in order. -/
def analyze_symptoms (env : AnalysisEnv) : List Strategy × AnalysisResponse :=
  if env.openai_key then
    match env.openai_result with
    | .ok a => ([Strategy.openai], a)
    | .error _ => (Strategy.openai :: (hf_stage env).1, (hf_stage env).2)
  else
    hf_stage env

/-- An environment with no OpenAI key and no Hugging Face model. -/
def env_no_services : AnalysisEnv :=
  ⟨false, .error (), false, .error ()⟩

/-- The endpoint including pydantic request validation: an invalid request
is rejected with a `422` validation error before `analyze_symptoms`
runs. -/
def validated_analyze (env : AnalysisEnv) (symptoms : String)
    (age : Option Int) (gender : Option String) :
    Except Int AnalysisResponse :=
  if symptomRequestValid symptoms age gender then
    .ok (analyze_symptoms env).2
  else
    .error 422

/-- A Python value as produced by `json.loads` (numbers idealised as
integers; JSON `true`/`false` keep Python's bool-is-int behaviour). -/
inductive PyVal where
  | pynone
  | pybool (b : Bool)
  | pyint (n : Int)
  | pystr (s : String)
  | pylist (xs : List PyVal)
  | pydict (kvs : List (String × PyVal))

/-- The read `data.get(key, default)` on a parsed JSON object. -/
def pyGet (kvs : List (String × PyVal)) (key : String) (dflt : PyVal) :
    PyVal :=
  match kvs.lookup key with
  | some v => v
  | none => dflt

/-- The clamp `min(max(confidence, 0), 100)`: defined for Python ints (and bools,
which are ints); any other type raises a `TypeError`. -/
def clampConfidence : PyVal → Option Int
  | .pyint n => some (min (max n 0) 100)
  | .pybool b => some (min (max (if b then (1 : Int) else 0) 0) 100)
  | _ => none

/-- Pydantic validation of a `str` field (strict: no coercion). -/
def pyToStr : PyVal → Option String
  | .pystr s => some s
  | _ => none

/-- Python `str(x)` for scalar values (container reprs are not
modelled). -/
def pyStrRepr : PyVal → Option String
  | .pystr s => some s
  | .pyint n => some (toString n)
  | .pybool b => some (if b then "True" else "False")
  | .pynone => some "None"
  | _ => none

/-- Pydantic validation of a `List[str]` field. -/
def listToStrs : List PyVal → Option (List String)
  | [] => some []
  | x :: xs =>
    match pyToStr x, listToStrs xs with
    | some s, some rest => some (s :: rest)
    | _, _ => none

/-- The severity normalisation
`if severity not in ["Low","Medium","High","Critical"]: severity = "Medium"`
(a non-string severity equals none of the four, so it becomes
`"Medium"`). -/
def normalizeSeverity : PyVal → String
  | .pystr s =>
    if s = "Low" ∨ s = "Medium" ∨ s = "High" ∨ s = "Critical" then s
    else "Medium"
  | _ => "Medium"

/-- The disclaimer `parse_gpt_response` always attaches. -/
def gpt_disclaimer : String :=
  "This AI analysis is for informational purposes only and should not replace professional medical advice, diagnosis, or treatment. Always consult with a qualified healthcare provider for medical concerns."

/-- The fallback response of the `json.JSONDecodeError` handler. -/
def json_error_fallback : AnalysisResponse :=
  ⟨"Unable to analyze symptoms - please try again", "Medium",
   "We encountered an issue analyzing your symptoms. Please consult with a healthcare professional.",
   0,
   ["Consult with a healthcare professional", "Monitor symptoms",
    "Seek medical attention if symptoms worsen"],
   "Seek immediate medical attention if you experience severe symptoms or if your condition worsens.",
   "This AI analysis is for informational purposes only and should not replace professional medical advice."⟩

/-- Embedding of `parse_gpt_response`.  The input is the outcome of `json.loads` on the
fence-stripped reply: `none` for a `JSONDecodeError` (handled by returning
`json_error_fallback`), `some v` for the parsed value.  Any other raised
exception (`AttributeError` from `.get` on a non-dict, `TypeError` from
clamping a non-numeric confidence, pydantic validation errors) is caught
by `except Exception` and re-raised as an HTTP 500 error. -/
def parse_gpt_response (data : Option PyVal) : Except Int AnalysisResponse :=
  match data with
  | none => .ok json_error_fallback
  | some (PyVal.pydict kvs) =>
    match clampConfidence (pyGet kvs "confidence" (.pyint 75)) with
    | none => .error 500
    | some conf =>
      match pyToStr (pyGet kvs "condition"
              (.pystr "Condition analysis unavailable")),
          pyToStr (pyGet kvs "advice"
              (.pystr "Please consult with a healthcare professional for proper evaluation.")),
          pyToStr (pyGet kvs "whenToSeekHelp"
              (.pystr "Seek medical attention if symptoms worsen or persist.")) with
      | some c, some adv, some w =>
        match
          (match pyGet kvs "recommendations"
              (.pylist [.pystr "Consult with a healthcare professional"]) with
           | .pylist xs => listToStrs xs
           | r => (pyStrRepr r).map (fun s => [s])) with
        | some recs =>
          .ok ⟨c,
               normalizeSeverity (pyGet kvs "severity" (.pystr "Medium")),
               adv, conf, recs, w, gpt_disclaimer⟩
        | none => .error 500
      | _, _, _ => .error 500
  | some _ => .error 500

/-- The response carried by a non-error result (the fallback response for
an error, used only to state projections without binders). -/
def payload (e : Except Int AnalysisResponse) : AnalysisResponse :=
  match e with
  | .ok r => r
  | .error _ => basic_fallback_response

/-- Python `int()` applied to a rational: truncation toward zero. -/
def truncInt (q : ℚ) : Int :=
  if 0 ≤ q then ⌊q⌋ else -⌊-q⌋

/-- Embedding of `calculate_confidence_from_entities`.  An entity is represented by its
optional `score` value (`entity.get('score', 0.5)` in the average,
`entity.get('score', 0)` in the high-confidence filter); scores are
idealised as rationals. -/
def calculate_confidence_from_entities (entities : List (Option ℚ)) : Int :=
  if entities = [] then 30
  else
    let scores := entities.map (fun e => e.getD (1 / 2))
    let avg := scores.sum / (scores.length : ℚ)
    let base := truncInt (avg * 100)
    let high := entities.filter (fun e => decide ((9 : ℚ) / 10 < e.getD 0))
    let base2 :=
      if 2 ≤ high.length then min (base + 15) 95
      else if 2 < entities.length then min (base + 10) 90
      else base
    max base2 35

/-- C1 counterexample: with no OpenAI key and no Hugging Face model, the
endpoint answers with the static fallback without any rule-based keyword
matching stage having been tried — no such stage exists in
`analyze_symptoms`. -/
theorem analyze_symptoms_counterexample :
    analyze_symptoms env_no_services
      = ([Strategy.staticFallback], basic_fallback_response)
    ∧ Strategy.ruleBased ∉ (analyze_symptoms env_no_services).1 :=
  ⟨rfl, by decide⟩

/-- C1 (amended): `analyze_symptoms` tries OpenAI first (only when a key
is configured), then the Hugging Face biomedical-NER stage (only when
available and OpenAI did not return), then the static fallback (only when
neither earlier stage returned); it always produces a response, and the
returned response is the first stage's that succeeded.  There is no
rule-based keyword-matching stage. -/
theorem analyze_symptoms_chain (env : AnalysisEnv) :
    (analyze_symptoms env).1.Sublist
        [Strategy.openai, Strategy.hfNer, Strategy.staticFallback]
    ∧ (Strategy.openai ∈ (analyze_symptoms env).1 ↔ env.openai_key = true)
    ∧ (Strategy.hfNer ∈ (analyze_symptoms env).1 ↔
        env.hf_available = true
        ∧ ¬(env.openai_key = true ∧ env.openai_result.isOk = true))
    ∧ (Strategy.staticFallback ∈ (analyze_symptoms env).1 ↔
        ¬(env.openai_key = true ∧ env.openai_result.isOk = true)
        ∧ ¬(env.hf_available = true ∧ env.hf_result.isOk = true))
    ∧ (∀ a, env.openai_key = true → env.openai_result = .ok a →
        analyze_symptoms env = ([Strategy.openai], a))
    ∧ (∀ a, env.hf_available = true →
        ¬(env.openai_key = true ∧ env.openai_result.isOk = true) →
        env.hf_result = .ok a →
        (analyze_symptoms env).2 = a)
    ∧ (Strategy.staticFallback ∈ (analyze_symptoms env).1 →
        (analyze_symptoms env).2 = basic_fallback_response) := by
  obtain ⟨key, ores, hfav, hres⟩ := env
  cases key <;> cases ores <;> cases hfav <;> cases hres <;>
    simp [analyze_symptoms, hf_stage, Except.isOk, Except.toBool]

/-- Witness for the amended C1: with a configured key whose call parses to
a response `a`, the endpoint returns `a` from the OpenAI stage alone. -/
theorem analyze_symptoms_chain_witness :
    analyze_symptoms ⟨true, .ok basic_fallback_response, false, .error ()⟩
      = ([Strategy.openai], basic_fallback_response) :=
  (analyze_symptoms_chain
      ⟨true, .ok basic_fallback_response, false, .error ()⟩).2.2.2.2.1
    basic_fallback_response rfl rfl

/-- C2 counterexample: the response schema's field list has no urgency
score field (no field name even contains `"urgency"`). -/
theorem analysis_response_schema_counterexample :
    analysisResponseFields
      = ["condition", "severity", "advice", "confidence", "recommendations",
         "whenToSeekHelp", "disclaimer"]
    ∧ (analysisResponseFields.all
        (fun f => !containsSub (kwChars "urgency") (kwChars f))) = true := by
  decide

/-- C2 (amended): every response the endpoint produces conforms to the one
fixed `AnalysisResponse` schema, whose fields are condition, severity,
advice, confidence, recommendations, whenToSeekHelp and disclaimer (there
is no urgency-score field). -/
theorem analysis_response_schema (env : AnalysisEnv) :
    (∃ (condition severity advice : String) (confidence : Int)
      (recommendations : List String) (whenToSeekHelp disclaimer : String),
      (analyze_symptoms env).2
        = ⟨condition, severity, advice, confidence, recommendations,
           whenToSeekHelp, disclaimer⟩)
    ∧ analysisResponseFields.length = 7 :=
  ⟨⟨_, _, _, _, _, _, _, rfl⟩, rfl⟩

/-- C3: a request is accepted exactly when the symptoms string has between
10 and 1000 characters and the age, when given, lies between 1 and 120;
gender is unconstrained; an invalid request is rejected with a 422
validation error before any analysis runs. -/
theorem symptom_request_validation (env : AnalysisEnv) (symptoms : String)
    (age : Option Int) (gender : Option String) :
    ((validated_analyze env symptoms age gender).isOk = true ↔
      (10 ≤ symptoms.length ∧ symptoms.length ≤ 1000
        ∧ ∀ a, age = some a → (1 ≤ a ∧ a ≤ 120)))
    ∧ (symptomRequestValid symptoms age gender = false →
        validated_analyze env symptoms age gender = .error 422) := by
  have hiff : symptomRequestValid symptoms age gender = true ↔
      (10 ≤ symptoms.length ∧ symptoms.length ≤ 1000
        ∧ ∀ a, age = some a → (1 ≤ a ∧ a ≤ 120)) := by
    unfold symptomRequestValid
    cases age with
    | none => simp
    | some a => simp [and_assoc]
  constructor
  · rw [← hiff]
    unfold validated_analyze
    cases hv : symptomRequestValid symptoms age gender with
    | true => simp [Except.isOk, Except.toBool]
    | false => simp [Except.isOk, Except.toBool]
  · intro hfalse
    unfold validated_analyze
    rw [if_neg (by simp [hfalse])]

/-- Witness for C3: a well-formed request (26-character symptoms, age 30)
is accepted. -/
theorem symptom_request_validation_witness :
    (validated_analyze env_no_services "persistent mild headache a"
        (some 30) none).isOk = true :=
  (symptom_request_validation env_no_services "persistent mild headache a"
      (some 30) none).1.mpr
    ⟨by decide, by decide,
      fun a ha => by
        cases ha
        exact ⟨by decide, by decide⟩⟩

/-! ## Lemmas about `parse_gpt_response` -/

def isPyStr : PyVal → Bool
  | .pystr _ => true
  | _ => false

def isIntLike : PyVal → Bool
  | .pyint _ => true
  | .pybool _ => true
  | _ => false

/-- Whether the recommendations field is a list of strings or a scalar
(anything that `str(...)`-coerces in the model). -/
def isStrListOrScalar : PyVal → Bool
  | .pylist xs => xs.all isPyStr
  | .pydict _ => false
  | _ => true

theorem isPyStr_exists {v : PyVal} (h : isPyStr v = true) :
    ∃ s, v = PyVal.pystr s := by
  cases v with
  | pystr s => exact ⟨s, rfl⟩
  | pynone => cases h
  | pybool b => cases h
  | pyint n => cases h
  | pylist xs => cases h
  | pydict kvs => cases h

theorem listToStrs_of_all {xs : List PyVal} (h : xs.all isPyStr = true) :
    ∃ l, listToStrs xs = some l := by
  induction xs with
  | nil => exact ⟨[], rfl⟩
  | cons x rest ih =>
    rw [List.all_cons, Bool.and_eq_true] at h
    rcases isPyStr_exists h.1 with ⟨s, rfl⟩
    rcases ih h.2 with ⟨l, hl⟩
    exact ⟨s :: l, by simp [listToStrs, pyToStr, hl]⟩

theorem recs_field_some {v : PyVal} (h : isStrListOrScalar v = true) :
    ∃ l, (match v with
          | PyVal.pylist xs => listToStrs xs
          | r => (pyStrRepr r).map (fun s => [s])) = some l := by
  cases v with
  | pylist xs => exact listToStrs_of_all h
  | pydict kvs => cases h
  | pynone => exact ⟨["None"], rfl⟩
  | pybool b => exact ⟨[if b then "True" else "False"], rfl⟩
  | pyint n => exact ⟨[toString n], rfl⟩
  | pystr s => exact ⟨[s], rfl⟩

theorem clampConfidence_of_intLike {v : PyVal} (h : isIntLike v = true) :
    ∃ c, clampConfidence v = some c ∧ 0 ≤ c ∧ c ≤ 100 := by
  cases v with
  | pyint n =>
    refine ⟨min (max n 0) 100, rfl, ?_, min_le_right _ _⟩
    exact le_min (le_max_right n 0) (by norm_num)
  | pybool b =>
    refine ⟨min (max (if b then (1 : Int) else 0) 0) 100, rfl, ?_,
      min_le_right _ _⟩
    exact le_min (le_max_right _ 0) (by norm_num)
  | pynone => cases h
  | pystr s => cases h
  | pylist xs => cases h
  | pydict kvs => cases h

theorem normalizeSeverity_mem (v : PyVal) :
    normalizeSeverity v = "Low" ∨ normalizeSeverity v = "Medium"
    ∨ normalizeSeverity v = "High" ∨ normalizeSeverity v = "Critical" := by
  cases v with
  | pystr s =>
    have hn : normalizeSeverity (PyVal.pystr s)
        = (if s = "Low" ∨ s = "Medium" ∨ s = "High" ∨ s = "Critical"
           then s else "Medium") := rfl
    rw [hn]
    by_cases hs : s = "Low" ∨ s = "Medium" ∨ s = "High" ∨ s = "Critical"
    · rw [if_pos hs]
      exact hs
    · rw [if_neg hs]
      exact Or.inr (Or.inl rfl)
  | pynone => exact Or.inr (Or.inl rfl)
  | pybool b => exact Or.inr (Or.inl rfl)
  | pyint n => exact Or.inr (Or.inl rfl)
  | pylist xs => exact Or.inr (Or.inl rfl)
  | pydict kvs => exact Or.inr (Or.inl rfl)

/-- C9 counterexample: the reply `"[1]"` is valid JSON, yet
`parse_gpt_response` raises an HTTP 500 error (`AttributeError` from
`.get` on a list, re-raised by the generic handler) instead of returning a
coerced response. -/
theorem parse_gpt_response_counterexample :
    parse_gpt_response (some (PyVal.pylist [PyVal.pyint 1]))
      = Except.error 500 := rfl

/-- C9 (amended): `parse_gpt_response` never propagates a JSON parse
failure — undecodable input yields the fixed fallback with confidence 0 —
and for any JSON object whose present fields are well typed (string
condition/advice/whenToSeekHelp, int-like confidence, recommendations a
list of strings or a scalar) it returns a response with confidence clamped
into [0, 100], severity one of Low/Medium/High/Critical (non-matching
values coerced to Medium), a list of recommendations, and the fixed
disclaimer.  (Valid JSON that is not such an object raises an HTTP 500
error; see the counterexample.) -/
theorem parse_gpt_response_correct :
    (parse_gpt_response none = .ok json_error_fallback
      ∧ json_error_fallback.confidence = 0)
    ∧ ∀ kvs : List (String × PyVal),
      isPyStr (pyGet kvs "condition"
          (.pystr "Condition analysis unavailable")) = true →
      isPyStr (pyGet kvs "advice"
          (.pystr "Please consult with a healthcare professional for proper evaluation.")) = true →
      isPyStr (pyGet kvs "whenToSeekHelp"
          (.pystr "Seek medical attention if symptoms worsen or persist.")) = true →
      isIntLike (pyGet kvs "confidence" (.pyint 75)) = true →
      isStrListOrScalar (pyGet kvs "recommendations"
          (.pylist [.pystr "Consult with a healthcare professional"])) = true →
      (parse_gpt_response (some (.pydict kvs))).isOk = true
      ∧ 0 ≤ (payload (parse_gpt_response (some (.pydict kvs)))).confidence
      ∧ (payload (parse_gpt_response (some (.pydict kvs)))).confidence ≤ 100
      ∧ (payload (parse_gpt_response (some (.pydict kvs)))).severity
          = normalizeSeverity (pyGet kvs "severity" (.pystr "Medium"))
      ∧ ((payload (parse_gpt_response (some (.pydict kvs)))).severity = "Low"
          ∨ (payload (parse_gpt_response (some (.pydict kvs)))).severity = "Medium"
          ∨ (payload (parse_gpt_response (some (.pydict kvs)))).severity = "High"
          ∨ (payload (parse_gpt_response (some (.pydict kvs)))).severity = "Critical")
      ∧ (payload (parse_gpt_response (some (.pydict kvs)))).disclaimer
          = gpt_disclaimer := by
  refine ⟨⟨rfl, rfl⟩, ?_⟩
  intro kvs hcond hadv hwhen hconf hrecs
  rcases isPyStr_exists hcond with ⟨c, hc⟩
  rcases isPyStr_exists hadv with ⟨adv, hadv'⟩
  rcases isPyStr_exists hwhen with ⟨w, hw⟩
  rcases clampConfidence_of_intLike hconf with ⟨conf, hcf, hcf0, hcf1⟩
  rcases recs_field_some hrecs with ⟨recs, hr⟩
  have hres : parse_gpt_response (some (.pydict kvs))
      = .ok ⟨c, normalizeSeverity (pyGet kvs "severity" (.pystr "Medium")),
             adv, conf, recs, w, gpt_disclaimer⟩ := by
    simp only [parse_gpt_response]
    rw [hcf, hc, hadv', hw]
    simp only [pyToStr]
    rw [hr]
  rw [hres]
  exact ⟨rfl, hcf0, hcf1, rfl,
    normalizeSeverity_mem (pyGet kvs "severity" (.pystr "Medium")), rfl⟩

/-- Witness for the amended C9: an object with an out-of-range confidence
and an unknown severity yields an accepted, clamped, Medium-severity
response with the fixed disclaimer. -/
theorem parse_gpt_response_correct_witness :
    (parse_gpt_response (some (.pydict
        [("condition", .pystr "Flu"), ("severity", .pystr "SILLY"),
         ("confidence", .pyint 150)]))).isOk = true
    ∧ 0 ≤ (payload (parse_gpt_response (some (.pydict
        [("condition", .pystr "Flu"), ("severity", .pystr "SILLY"),
         ("confidence", .pyint 150)])))).confidence
    ∧ (payload (parse_gpt_response (some (.pydict
        [("condition", .pystr "Flu"), ("severity", .pystr "SILLY"),
         ("confidence", .pyint 150)])))).confidence ≤ 100
    ∧ (payload (parse_gpt_response (some (.pydict
        [("condition", .pystr "Flu"), ("severity", .pystr "SILLY"),
         ("confidence", .pyint 150)])))).disclaimer = gpt_disclaimer := by
  have h := parse_gpt_response_correct.2
    [("condition", .pystr "Flu"), ("severity", .pystr "SILLY"),
     ("confidence", .pyint 150)]
    (by decide) (by decide) (by decide) (by decide) (by decide)
  exact ⟨h.1, h.2.1, h.2.2.1, h.2.2.2.2.2⟩

theorem sum_bounds {l : List ℚ} (h : ∀ x ∈ l, 0 ≤ x ∧ x ≤ 1) :
    0 ≤ l.sum ∧ l.sum ≤ (l.length : ℚ) := by
  induction l with
  | nil => simp
  | cons x xs ih =>
    have hx := h x (List.mem_cons_self _ _)
    have ih' := ih (fun y hy => h y (List.mem_cons_of_mem _ hy))
    simp only [List.sum_cons, List.length_cons]
    push_cast
    constructor <;> linarith [hx.1, hx.2, ih'.1, ih'.2]

/-- C10: `calculate_confidence_from_entities` returns `30` on the empty
list, and on any non-empty list whose present scores lie in `[0, 1]` it
returns an integer between `35` and `100`. -/
theorem calculate_confidence_correct :
    calculate_confidence_from_entities [] = 30
    ∧ ∀ entities : List (Option ℚ), entities ≠ [] →
      (∀ e ∈ entities, ∀ q, e = some q → 0 ≤ q ∧ q ≤ 1) →
      35 ≤ calculate_confidence_from_entities entities
      ∧ calculate_confidence_from_entities entities ≤ 100 := by
  refine ⟨rfl, ?_⟩
  intro entities hne hsc
  have hallsc : ∀ x ∈ entities.map (fun e => e.getD (1 / 2)),
      0 ≤ x ∧ x ≤ 1 := by
    intro x hx
    rcases List.mem_map.mp hx with ⟨e, he, rfl⟩
    cases e with
    | none =>
      constructor <;> norm_num
    | some q => simpa using hsc _ he q rfl
  have hsum := sum_bounds hallsc
  have hlenpos : 0 < entities.length := List.length_pos.mpr hne
  have hnpos : (0 : ℚ) <
      ((entities.map (fun e => e.getD (1 / 2))).length : ℚ) := by
    rw [List.length_map]
    exact_mod_cast hlenpos
  have havg0 : 0 ≤ (entities.map (fun e => e.getD (1 / 2))).sum /
      ((entities.map (fun e => e.getD (1 / 2))).length : ℚ) :=
    div_nonneg hsum.1 hnpos.le
  have havg1 : (entities.map (fun e => e.getD (1 / 2))).sum /
      ((entities.map (fun e => e.getD (1 / 2))).length : ℚ) ≤ 1 :=
    (div_le_one hnpos).mpr hsum.2
  have hq0 : 0 ≤ (entities.map (fun e => e.getD (1 / 2))).sum /
      ((entities.map (fun e => e.getD (1 / 2))).length : ℚ) * 100 :=
    mul_nonneg havg0 (by norm_num)
  have hq1 : (entities.map (fun e => e.getD (1 / 2))).sum /
      ((entities.map (fun e => e.getD (1 / 2))).length : ℚ) * 100 ≤ 100 := by
    calc (entities.map (fun e => e.getD (1 / 2))).sum /
        ((entities.map (fun e => e.getD (1 / 2))).length : ℚ) * 100
        ≤ 1 * 100 := mul_le_mul_of_nonneg_right havg1 (by norm_num)
      _ = 100 := one_mul 100
  have hbase0 : 0 ≤ truncInt ((entities.map (fun e => e.getD (1 / 2))).sum /
      ((entities.map (fun e => e.getD (1 / 2))).length : ℚ) * 100) := by
    unfold truncInt
    rw [if_pos hq0]
    exact Int.floor_nonneg.mpr hq0
  have hbase1 : truncInt ((entities.map (fun e => e.getD (1 / 2))).sum /
      ((entities.map (fun e => e.getD (1 / 2))).length : ℚ) * 100) ≤ 100 := by
    unfold truncInt
    rw [if_pos hq0]
    have h100 : ⌊(100 : ℚ)⌋ = 100 := by norm_num
    calc ⌊(entities.map (fun e => e.getD (1 / 2))).sum /
          ((entities.map (fun e => e.getD (1 / 2))).length : ℚ) * 100⌋
        ≤ ⌊(100 : ℚ)⌋ := Int.floor_le_floor hq1
      _ = 100 := h100
  unfold calculate_confidence_from_entities
  rw [if_neg hne]
  simp only []
  set b := truncInt ((entities.map (fun e => e.getD (1 / 2))).sum /
      ((entities.map (fun e => e.getD (1 / 2))).length : ℚ) * 100) with hb
  split_ifs with h1 h2
  · constructor
    · exact le_max_right _ _
    · have hmin : min (b + 15) 95 ≤ 95 := min_le_right _ _
      have : max (min (b + 15) 95) 35 ≤ 100 := by
        apply max_le
        · omega
        · norm_num
      exact this
  · constructor
    · exact le_max_right _ _
    · have hmin : min (b + 10) 90 ≤ 90 := min_le_right _ _
      apply max_le
      · omega
      · norm_num
  · constructor
    · exact le_max_right _ _
    · apply max_le
      · omega
      · norm_num

/-- Witness for C10 at two entities with scores `1` and `0`. -/
theorem calculate_confidence_correct_witness :
    35 ≤ calculate_confidence_from_entities [some 1, some 0]
    ∧ calculate_confidence_from_entities [some 1, some 0] ≤ 100 :=
  calculate_confidence_correct.2 [some 1, some 0]
    (by simp)
    (fun e he q heq => by
      rcases List.mem_cons.mp he with rfl | he2
      · cases heq
        exact ⟨zero_le_one, le_refl 1⟩
      · rcases List.mem_cons.mp he2 with rfl | he3
        · cases heq
          exact ⟨le_refl 0, zero_le_one⟩
        · cases he3)
